import Mathlib

/-!
Shallow embedding of the state-synchronization core of the Music Time
extension (files `src/lib/DataController.ts`,
`src/lib/music/MusicPlaylistProvider.ts`), together with theorems
settling the behavioural claims about it.

JavaScript conventions are made explicit: a possibly-absent string is an
`Option String` and its truthiness test is `strTruthy` (absent and `""`
are falsy); a value that can be either a payload or an error object
carrying a `status` field is a `SpotifyApiResult`; code that can raise a
`TypeError` is embedded in `Except String`.
-/

/-- Truthiness of a possibly-absent JS string: `null`/`undefined` and the
empty string are falsy. -/
def strTruthy : Option String → Bool
  | none => false
  | some s => s != ""

/-- One entry of `user.auths` in the `/users/plugin/state` response. -/
structure AuthRecord where
  type : String
  access_token : Option String
deriving DecidableEq

/-- The `user` object of the `/users/plugin/state` response; `auths` may be
absent. -/
structure UserRec where
  auths : Option (List AuthRecord)
deriving DecidableEq

/-- The body (`resp.data`) of the `/users/plugin/state` response. -/
structure StateData where
  state : Option String
  email : Option String
  jwt : Option String
  user : Option UserRec
deriving DecidableEq

/-- The record returned by `getMusicTimeUserStatus`. -/
structure UserStatus where
  loggedOn : Bool
  state : String
deriving DecidableEq

/-- `resp.data.state ? resp.data.state : "UNKNOWN"`: the state string of the
response body, defaulting to `"UNKNOWN"` when the field is absent or falsy. -/
def resolveState (d : StateData) : String :=
  match d.state with
  | some s => if s != "" then s else "UNKNOWN"
  | none => "UNKNOWN"

/-- The loop over `user.auths` in `getMusicTimeUserStatus`: `foundSpotifyAuth`
is set when some record has `type === "spotify"` and a truthy
`access_token`. -/
def foundSpotifyAuth (u : UserRec) : Bool :=
  match u.auths with
  | some auths => auths.any (fun a => a.type == "spotify" && strTruthy a.access_token)
  | none => false

/-- `getMusicTimeUserStatus` (`src/lib/DataController.ts:156-214`).
Arguments: the stored `jwt` and `spotify_refresh_token` items, whether
`isResponseOk(resp)` held, and the response body (`none` when `resp.data`
was absent).  The `setItem`/`updateSpotifyAccessInfo`/`updateSlackAccessInfo`
calls mutate external managers and do not affect the returned record; they
are not represented here.  The unguarded `user.auths` access in the `"OK"`
branch raises a `TypeError` when the body has no `user` field, embedded as
`Except.error`. -/
def getMusicTimeUserStatus (jwt spotify_refresh_token : Option String)
    (respOk : Bool) (data : Option StateData) : Except String UserStatus :=
  if strTruthy jwt || strTruthy spotify_refresh_token then
    match (if respOk then data else none) with
    | some d =>
      let state := resolveState d
      if state = "OK" then
        match d.user with
        | none => Except.error "TypeError: cannot read auths of undefined"
        | some u => Except.ok { loggedOn := foundSpotifyAuth u, state := state }
      else
        Except.ok { loggedOn := false, state := state }
    | none => Except.ok { loggedOn := false, state := "UNKNOWN" }
  else
    Except.ok { loggedOn := false, state := "UNKNOWN" }

/-- A liked-song record as consumed by `seedLikedSongSessions`: only the
fields the loop reads or writes are kept. -/
structure LikedTrack where
  trackId : String
  playlistId : Option String
deriving DecidableEq

/-- A song-session record pushed into a batch: the track merged with the
bootstrap file metrics, `liked` forced to `true` and `playlistId` defaulted
to `"Liked Songs"` when falsy. -/
structure SongSession where
  trackId : String
  playlistId : String
  liked : Bool
deriving DecidableEq

/-- The per-track mutation inside the `seedLikedSongSessions` loop. -/
def toSongSession (t : LikedTrack) : SongSession :=
  { trackId := t.trackId
    playlistId :=
      match t.playlistId with
      | some p => if p != "" then p else "Liked Songs"
      | none => "Liked Songs"
    liked := true }

/-- `batch_size` constant of `seedLikedSongSessions`. -/
def batch_size : Nat := 30

/-- The indexed loop of `seedLikedSongSessions`: push the session, then send
the accumulated batch when `i > 0 && i % batch_size === 0`; after the loop
the remaining non-empty batch is sent.  Returns the batches in the order
they are handed to `sendBatchedLikedSongSessions`. -/
def seedLoop : List LikedTrack → Nat → List SongSession → List (List SongSession)
  | [], _, batch => if batch.length > 0 then [batch] else []
  | t :: rest, i, batch =>
      let batch' := batch ++ [toSongSession t]
      if i > 0 && i % batch_size == 0 then
        batch' :: seedLoop rest (i + 1) []
      else
        seedLoop rest (i + 1) batch'

/-- `seedLikedSongSessions` (`src/lib/DataController.ts:434-474`), as the
sequence of batches it sends to the `/music/session/seed` endpoint. -/
def seedLikedSongSessions (likedSongs : List LikedTrack) : List (List SongSession) :=
  if likedSongs.length > 0 then seedLoop likedSongs 0 [] else []

/-- A list of `n` distinct liked tracks with no preset playlist id. -/
def sampleLikedTracks (n : Nat) : List LikedTrack :=
  (List.range n).map (fun i => { trackId := toString i, playlistId := none })

/-- Result of a `runSpotifyCommand` call: either the fetched payload (an
array), or the error object `{status: code}` the wrapper returns on
failure/rate-limit. -/
inductive SpotifyApiResult (α : Type) where
  | payload (v : α)
  | statusResult (code : Nat)
deriving DecidableEq

/-- The playlist-related fields of the `MusicDataManager` snapshot touched by
`populateSpotifyPlaylists`. -/
structure MusicDataState where
  origRawPlaylistOrder : List String
  rawPlaylists : List String
  displayedPlaylists : List String
  savedPlaylists : List String
  currentDevices : SpotifyApiResult (List String)
deriving DecidableEq

/-- Name of the synthetic liked-songs playlist. -/
def likedSongsPlaylistName : String := "Liked Songs"

/-- Modelled from the spec: `MusicDataManager.reconcilePlaylists` is not under
`src/`.  Per §4.1 it merges the currently known raw remote ordering into the
displayed list, keeping the remote ordering authoritative for membership while
re-inserting the synthetic "Liked Songs" playlist at a stable leading
position, idempotently (no duplicate synthetic insertion).  It does not write
the raw ordering fields. -/
def reconcilePlaylists (s : MusicDataState) : MusicDataState :=
  { s with displayedPlaylists :=
      likedSongsPlaylistName :: s.rawPlaylists.filter (fun p => p != likedSongsPlaylistName) }

/-- Modelled from the spec: `MusicDataManager.populateGeneratedPlaylists` is
not under `src/`.  Per §4.1 the generated (synthetic) playlists are injected
into the displayed list built from the raw remote playlists; the raw ordering
fields are read, not written. -/
def populateGeneratedPlaylists (s : MusicDataState) : MusicDataState :=
  { s with displayedPlaylists :=
      likedSongsPlaylistName :: s.rawPlaylists.filter (fun p => p != likedSongsPlaylistName) }

/-- Modelled from the spec: `MusicDataManager.fetchSavedPlaylists` is not
under `src/`; it stores the Music Time app's saved playlists fetched from the
backend (passed here as `savedFetch`). -/
def fetchSavedPlaylists (savedFetch : List String) (s : MusicDataState) : MusicDataState :=
  { s with savedPlaylists := savedFetch }

/-- `populateSpotifyDevices` (`src/lib/DataController.ts:392-408`): on a 429
status the current device set is left alone, otherwise the fetched value is
assigned wholesale.  The deferred `gatherMusicInfoRequest` call does not touch
the modelled state. -/
def populateSpotifyDevices (devResult : SpotifyApiResult (List String))
    (s : MusicDataState) : MusicDataState :=
  match devResult with
  | SpotifyApiResult.statusResult c =>
      if c = 429 then s else { s with currentDevices := SpotifyApiResult.statusResult c }
  | SpotifyApiResult.payload v => { s with currentDevices := SpotifyApiResult.payload v }

/-- Outcome of one `populateSpotifyPlaylists` call: the snapshot after the
call and the delay (ms) of the rescheduled retry, when one was set up. -/
structure PopulateResult where
  state : MusicDataState
  retryDelayMs : Option Nat
deriving DecidableEq

/-- `populateSpotifyPlaylists` (`src/lib/DataController.ts:347-390`).
Order of operations, as in the source: reconcile, clear the raw and orig
playlist fields, populate devices, fetch saved playlists, fetch the remote
playlists; if the fetch came back with a truthy `status >= 400` schedule a
retry of the same function after 3000 ms (without assigning the fetched
value), otherwise assign `origRawPlaylistOrder`/`rawPlaylists` from the
fetched value; finally populate the generated playlists.  Spreading an error
object with a status below 400 (`[...rawPlaylists]`) would raise a
`TypeError`, embedded as `Except.error`.  `populatePlayerContext` only writes
the player context and sync controls, which are outside the modelled playlist
state. -/
def populateSpotifyPlaylists (devResult : SpotifyApiResult (List String))
    (savedFetch : List String) (playlistFetch : SpotifyApiResult (List String))
    (s : MusicDataState) : Except String PopulateResult :=
  let s1 := reconcilePlaylists s
  let s2 := { s1 with origRawPlaylistOrder := [], rawPlaylists := [] }
  let s3 := populateSpotifyDevices devResult s2
  let s4 := fetchSavedPlaylists savedFetch s3
  match playlistFetch with
  | SpotifyApiResult.statusResult c =>
      if c ≥ 400 then
        Except.ok { state := populateGeneratedPlaylists s4, retryDelayMs := some 3000 }
      else
        Except.error "TypeError: spread of a non-iterable error object"
  | SpotifyApiResult.payload pls =>
      let s5 := { s4 with origRawPlaylistOrder := pls, rawPlaylists := pls }
      Except.ok { state := populateGeneratedPlaylists s5, retryDelayMs := none }

/-- Outcome of one `spotifyConnectStatusHandler`/`slackConnectStatusHandler`
invocation: reschedule the lazy refetch with a decremented count, terminate
silently, or succeed (one-time side effects, no reschedule). -/
inductive HandlerOutcome where
  | reschedule (tryCountUntilFound : Nat)
  | terminate
  | success
deriving DecidableEq

/-- `spotifyConnectStatusHandler` (`src/lib/DataController.ts:263-318`),
reduced to its scheduling decision: when the user is not logged on and the
count is still positive, decrement it and reschedule via
`refetchSpotifyConnectStatusLazily`; when the count is zero, stop; when
logged on, perform the one-time population side effects and stop. -/
def spotifyConnectStatusHandler (loggedOn : Bool) (tryCountUntilFound : Nat) : HandlerOutcome :=
  if !loggedOn then
    if tryCountUntilFound > 0 then
      HandlerOutcome.reschedule (tryCountUntilFound - 1)
    else
      HandlerOutcome.terminate
  else
    HandlerOutcome.success

/-- Trace of the timer firings of the spotify connection-status polling loop
when the condition never becomes true: each entry is the
`tryCountUntilFound` value a fired check runs with, starting from the timer
scheduled by the entry point and following the handler's reschedules.  `fuel`
is a modelling bound on recursion depth; any `fuel > count` is adequate. -/
def spotifyNeverFoundFirings (fuel : Nat) (count : Nat) : List Nat :=
  match fuel with
  | 0 => []
  | fuel' + 1 =>
      count ::
        (match spotifyConnectStatusHandler false count with
         | HandlerOutcome.reschedule m => spotifyNeverFoundFirings fuel' m
         | HandlerOutcome.terminate => []
         | HandlerOutcome.success => [])

/-- The `type` discriminator of a `PlaylistItem` node. -/
inductive ItemType where
  | track
  | playlist
deriving DecidableEq

/-- `PlayerType` of an item, as far as `playSelectedItem` branches on it. -/
inductive ItemPlayerType where
  | macItunesDesktop
  | other
deriving DecidableEq

/-- The `PlaylistItem` fields read by `playSelectedItem`. -/
structure PlaylistItemNode where
  id : String
  name : String
  type : ItemType
  playlist_id : Option String
  position : Option Nat
  playerType : ItemPlayerType
deriving DecidableEq

/-- The player chosen by the launch confirmation. -/
inductive ChosenPlayer where
  | spotifyDesktop
  | spotifyWeb
deriving DecidableEq

/-- The object returned by `musicMgr.launchConfirm(devices)`. -/
structure LaunchConfirmInfo where
  proceed : Bool
  playerName : ChosenPlayer
  isLaunching : Bool
deriving DecidableEq

/-- The `MusicManager` fields read and written by `playSelectedItem`. -/
structure MusicMgrState where
  selectedTrackItem : Option PlaylistItemNode
  selectedPlaylist : Option PlaylistItemNode
  currentProvider : Option String
  controlsLoading : Bool
deriving DecidableEq

/-- Which backend helper `playSelectedItem` dispatches to.  The helper
functions resolve their own arguments from the manager state when they run,
so only the dispatch target (and the iTunes positional arguments, passed
directly) is recorded here. -/
inductive BackendCommand where
  | itunesPlay (pos : Nat)
  | spotifyDesktopPlaylistTrack
  | spotifyWebPlaylistTrack (isTrack : Bool)
deriving DecidableEq

/-- A dispatched backend call, immediate (`delayMs = none`) or deferred by
`setTimeout` (`delayMs = some 4000` for the launch-settle delay). -/
structure ScheduledCommand where
  cmd : BackendCommand
  delayMs : Option Nat
deriving DecidableEq

/-- Outcome of one `playSelectedItem` call: the manager state after the call,
the backend calls dispatched (in order), and whether a deferred
`musictime.refreshPlaylist` was scheduled. -/
structure PlayResult where
  state : MusicMgrState
  commands : List ScheduledCommand
  refreshScheduled : Bool
deriving DecidableEq

/-- `playlistItem.position || 1`. -/
def itemPosition (item : PlaylistItemNode) : Nat :=
  match item.position with
  | some p => if p != 0 then p else 1
  | none => 1

/-- The fixed `launchTimeout` of `playSelectedItem`. -/
def launchTimeout : Nat := 4000

/-- `playSelectedItem` (`src/lib/music/MusicPlaylistProvider.ts:46-177`).
Arguments: the clicked item, the expand flag, the launch confirmation
(already resolved from the device query), the result of
`getPlaylistById(playlistItem.playlist_id)` and of
`getPlaylistItemTracksForPlaylistId(playlistItem.id)`, and the manager
state.  Faithful branch structure: abort when the confirmation did not
proceed; mark the controls loading and the provider; in the track branch set
the selected track, backfill the selected playlist when unset, and dispatch
by player type (the iTunes track path has no launch deferral in the source);
in the playlist branch set the selected playlist and, for a play request,
abort before touching the selected track when the fetched track list is
empty; finally schedule the deferred playlist refresh only when a launch was
initiated. -/
def playSelectedItem (item : PlaylistItemNode) (isExpand : Bool)
    (confirm : LaunchConfirmInfo) (playlistById : Option PlaylistItemNode)
    (fetchedTracks : List PlaylistItemNode) (s : MusicMgrState) : PlayResult :=
  if !confirm.proceed then
    { state := s, commands := [], refreshScheduled := false }
  else
    let s1 := { s with controlsLoading := true, currentProvider := some "playlists" }
    let delay : Option Nat := if confirm.isLaunching then some launchTimeout else none
    let refreshed := confirm.isLaunching
    if item.type = ItemType.track then
      let s2 := { s1 with selectedTrackItem := some item }
      let s3 :=
        if s2.selectedPlaylist.isNone then
          { s2 with selectedPlaylist := playlistById }
        else s2
      let cmds :=
        if item.playerType = ItemPlayerType.macItunesDesktop then
          [{ cmd := BackendCommand.itunesPlay (itemPosition item), delayMs := none }]
        else if confirm.playerName = ChosenPlayer.spotifyDesktop then
          [{ cmd := BackendCommand.spotifyDesktopPlaylistTrack, delayMs := delay }]
        else
          [{ cmd := BackendCommand.spotifyWebPlaylistTrack true, delayMs := delay }]
      { state := s3, commands := cmds, refreshScheduled := refreshed }
    else
      let s2 := { s1 with selectedPlaylist := some item }
      if !isExpand then
        match fetchedTracks.head? with
        | none =>
            { state := s2, commands := [], refreshScheduled := false }
        | some selectedTrack =>
            let s3 := { s2 with selectedTrackItem := some selectedTrack }
            let cmds :=
              if item.playerType = ItemPlayerType.macItunesDesktop then
                [{ cmd := BackendCommand.itunesPlay 1, delayMs := delay }]
              else if confirm.playerName = ChosenPlayer.spotifyDesktop then
                [{ cmd := BackendCommand.spotifyDesktopPlaylistTrack, delayMs := delay }]
              else
                [{ cmd := BackendCommand.spotifyWebPlaylistTrack false, delayMs := delay }]
            { state := s3, commands := cmds, refreshScheduled := refreshed }
      else
        { state := s2, commands := [], refreshScheduled := refreshed }

/-- The module-level timeout guards of `DataController.ts` together with the
number of scheduled-but-unfired timers per polled condition (the latter is
the quantity the guard is meant to bound; it is not itself a program
variable). -/
structure PollTimeouts where
  slackFetchTimeout : Bool
  spotifyFetchTimeout : Bool
  slackOutstanding : Nat
  spotifyOutstanding : Nat
deriving DecidableEq

/-- Initial state: no guard set, no timer outstanding. -/
def initPollTimeouts : PollTimeouts :=
  { slackFetchTimeout := false, spotifyFetchTimeout := false
    slackOutstanding := 0, spotifyOutstanding := 0 }

/-- `refetchSlackConnectStatusLazily` (`src/lib/DataController.ts:230-238`):
return immediately when `slackFetchTimeout` is set, otherwise schedule a
timer and set the guard. -/
def refetchSlackConnectStatusLazily (s : PollTimeouts) : PollTimeouts :=
  if s.slackFetchTimeout then s
  else { s with slackFetchTimeout := true, slackOutstanding := s.slackOutstanding + 1 }

/-- `refetchSpotifyConnectStatusLazily` (`src/lib/DataController.ts:253-261`):
return immediately when `spotifyFetchTimeout` is set, otherwise schedule a
timer and set the guard. -/
def refetchSpotifyConnectStatusLazily (s : PollTimeouts) : PollTimeouts :=
  if s.spotifyFetchTimeout then s
  else { s with spotifyFetchTimeout := true, spotifyOutstanding := s.spotifyOutstanding + 1 }

/-- A slack timer firing: the callback clears the guard before running the
handler (whose own refetch, if any, is a subsequent event).  Firing consumes
one outstanding timer; with none outstanding there is nothing to fire. -/
def slackTimerFires (s : PollTimeouts) : PollTimeouts :=
  if s.slackOutstanding > 0 then
    { s with slackFetchTimeout := false, slackOutstanding := s.slackOutstanding - 1 }
  else s

/-- A spotify timer firing, symmetric to `slackTimerFires`. -/
def spotifyTimerFires (s : PollTimeouts) : PollTimeouts :=
  if s.spotifyOutstanding > 0 then
    { s with spotifyFetchTimeout := false, spotifyOutstanding := s.spotifyOutstanding - 1 }
  else s

/-- The events that touch the timeout guards. -/
inductive PollEvent where
  | slackRefetch
  | slackFire
  | spotifyRefetch
  | spotifyFire
deriving DecidableEq

/-- One scheduling event. -/
def pollStep (s : PollTimeouts) : PollEvent → PollTimeouts
  | PollEvent.slackRefetch => refetchSlackConnectStatusLazily s
  | PollEvent.slackFire => slackTimerFires s
  | PollEvent.spotifyRefetch => refetchSpotifyConnectStatusLazily s
  | PollEvent.spotifyFire => spotifyTimerFires s

/-- Run a sequence of scheduling events. -/
def runPollEvents (evs : List PollEvent) (s : PollTimeouts) : PollTimeouts :=
  evs.foldl pollStep s

/-- The guard/timer invariant: per condition, at most one timer is
outstanding, and the guard is set exactly when one is. -/
abbrev pollInvariant (s : PollTimeouts) : Prop :=
  s.slackOutstanding ≤ 1 ∧ s.spotifyOutstanding ≤ 1 ∧
    (s.slackFetchTimeout = true ↔ s.slackOutstanding = 1) ∧
    (s.spotifyFetchTimeout = true ↔ s.spotifyOutstanding = 1)

/-- Outcome of one `serverIsAvailable` call: the returned availability, the
cache value written back, and whether a remote `/ping` was issued. -/
structure ServerCheckResult where
  value : Bool
  newCache : Option Bool
  remoteCallMade : Bool
deriving DecidableEq

/-- `serverIsAvailable` (`src/lib/DataController.ts:76-91`).  `cached` is
what `cacheMgr.get("serverAvailable")` returns (absent or a stored boolean);
`pingResult` is what the `/ping` round trip would yield.  The source
coerces the cached value with `|| null`, so a cached `false` is treated as a
miss; after a miss the ping result is fetched and, being non-null, always
written back to the cache. -/
def serverIsAvailable (pingResult : Bool) (cached : Option Bool) : ServerCheckResult :=
  let serverAvailable : Option Bool :=
    match cached with
    | some b => if b then some true else none
    | none => none
  match serverAvailable with
  | none => { value := pingResult, newCache := some pingResult, remoteCallMade := true }
  | some v => { value := v, newCache := some v, remoteCallMade := false }

/-- C2: evaluating the seeding loop at 65 liked tracks.  The batches handed
to the `/music/session/seed` endpoint have sizes 31, 30 and 4: the push
happens before the `i > 0 && i % batch_size === 0` test, so the first batch
carries the 31 tracks of indices 0..30, exceeding the intended
`batch_size = 30` and contradicting the claimed sizes 30, 30, 5. -/
theorem seedLikedSongSessions_batch_sizes_at_65 :
    (seedLikedSongSessions (sampleLikedTracks 65)).map List.length = [31, 30, 4] := by
  decide

/-- C3: classification of the three response bodies by
`getMusicTimeUserStatus`, given an available token and a successful
response: an `OK` body whose user carries a spotify auth with an access
token yields `{loggedOn: true, state: "OK"}`; an `ANONYMOUS` body yields
`{loggedOn: false, state: "ANONYMOUS"}`; a body with no `state` field yields
`{loggedOn: false, state: "UNKNOWN"}`. -/
theorem getMusicTimeUserStatus_classification :
    getMusicTimeUserStatus (some "jwt-token") none true
        (some { state := some "OK", email := none, jwt := none,
                user := some { auths := some [{ type := "spotify", access_token := some "x" }] } })
      = Except.ok { loggedOn := true, state := "OK" } ∧
    getMusicTimeUserStatus (some "jwt-token") none true
        (some { state := some "ANONYMOUS", email := none, jwt := none, user := none })
      = Except.ok { loggedOn := false, state := "ANONYMOUS" } ∧
    getMusicTimeUserStatus (some "jwt-token") none true
        (some { state := none, email := none, jwt := none, user := none })
      = Except.ok { loggedOn := false, state := "UNKNOWN" } := by
  refine ⟨rfl, rfl, rfl⟩

/-- Whether a spotify auth record (with a truthy access token) occurs among
the records of a response body. -/
def spotifyAuthPresent (d : StateData) : Bool :=
  match d.user with
  | some u => foundSpotifyAuth u
  | none => false

/-- C4, counterexample: a successful `ANONYMOUS` response whose records do
contain a spotify auth record still yields `loggedOn: false` — the auth loop
runs only inside the `state === "OK"` branch, so `loggedOn` is not
independent of the state classification. -/
theorem getMusicTimeUserStatus_loggedOn_depends_on_state :
    spotifyAuthPresent
        { state := some "ANONYMOUS", email := none, jwt := none,
          user := some { auths := some [{ type := "spotify", access_token := some "x" }] } }
      = true ∧
    getMusicTimeUserStatus (some "jwt-token") none true
        (some { state := some "ANONYMOUS", email := none, jwt := none,
                user := some { auths := some [{ type := "spotify", access_token := some "x" }] } })
      = Except.ok { loggedOn := false, state := "ANONYMOUS" } := by
  refine ⟨by decide, rfl⟩

/-- C4, amended: for every successful response carrying a user record,
`loggedOn` is the conjunction of the state classifying as `"OK"` and a
spotify auth record with a truthy access token being present — so the flag
reports the spotify auth only within the `OK` branch and is `false` for
every other state, not independently of `state`. -/
theorem getMusicTimeUserStatus_loggedOn_characterization
    (jwt srt : Option String) (d : StateData) (u : UserRec)
    (htok : (strTruthy jwt || strTruthy srt) = true)
    (hu : d.user = some u) :
    getMusicTimeUserStatus jwt srt true (some d)
      = Except.ok { loggedOn := decide (resolveState d = "OK") && foundSpotifyAuth u,
                    state := resolveState d } := by
  unfold getMusicTimeUserStatus
  rw [htok]
  simp only [if_true]
  by_cases hOK : resolveState d = "OK"
  · simp [hOK, hu]
  · simp [hOK]

/-- C4, witness for the amended theorem at a concrete `ANONYMOUS` body. -/
theorem getMusicTimeUserStatus_loggedOn_characterization_witness :
    getMusicTimeUserStatus (some "jwt-token") none true
        (some { state := some "ANONYMOUS", email := none, jwt := none,
                user := some { auths := some [{ type := "spotify", access_token := some "x" }] } })
      = Except.ok
          { loggedOn :=
              decide (resolveState
                  { state := some "ANONYMOUS", email := none, jwt := none,
                    user := some { auths := some [{ type := "spotify", access_token := some "x" }] } }
                = "OK") &&
                foundSpotifyAuth { auths := some [{ type := "spotify", access_token := some "x" }] },
            state := resolveState
              { state := some "ANONYMOUS", email := none, jwt := none,
                user := some { auths := some [{ type := "spotify", access_token := some "x" }] } } } :=
  getMusicTimeUserStatus_loggedOn_characterization (some "jwt-token") none _ _ (by decide) rfl

/-- C10: the `user.auths` access is unguarded, so a successful `OK`-state
body without a `user` field makes `getMusicTimeUserStatus` raise a
`TypeError` instead of returning a `{loggedOn, state}` record; under the
precondition that every `OK`-state body carries a user record, every call
returns normally. -/
theorem getMusicTimeUserStatus_ok_state_requires_user
    (jwt srt : Option String) (respOk : Bool) (data : Option StateData)
    (h : ∀ d, data = some d → resolveState d = "OK" → d.user.isSome = true) :
    (∃ r, getMusicTimeUserStatus jwt srt respOk data = Except.ok r) ∧
    getMusicTimeUserStatus (some "jwt-token") none true
        (some { state := some "OK", email := none, jwt := none, user := none })
      = Except.error "TypeError: cannot read auths of undefined" := by
  refine ⟨?_, rfl⟩
  unfold getMusicTimeUserStatus
  by_cases htok : (strTruthy jwt || strTruthy srt) = true
  · rw [htok]
    simp only [if_true]
    cases hdata : (if respOk then data else none) with
    | none => exact ⟨_, rfl⟩
    | some d =>
      have hd : data = some d := by
        cases respOk with
        | false => simp at hdata
        | true => simpa using hdata
      by_cases hOK : resolveState d = "OK"
      · have := h d hd hOK
        cases hu : d.user with
        | none => rw [hu] at this; simp at this
        | some u => simp [hOK, hu]
      · simp [hOK]
  · rw [Bool.not_eq_true] at htok
    rw [htok]
    exact ⟨_, rfl⟩

/-- C10, witness: a call with no stored token returns normally (the
precondition holds vacuously). -/
theorem getMusicTimeUserStatus_ok_state_requires_user_witness :
    (∃ r, getMusicTimeUserStatus none none false none = Except.ok r) ∧
    getMusicTimeUserStatus (some "jwt-token") none true
        (some { state := some "OK", email := none, jwt := none, user := none })
      = Except.error "TypeError: cannot read auths of undefined" :=
  getMusicTimeUserStatus_ok_state_requires_user none none false none
    (fun _ hd => nomatch hd)

/-- With adequate fuel, the never-found firing trace starting at `count` has
exactly `count + 1` entries: the handler reschedules while the counter is
positive and terminates at zero. -/
theorem spotifyNeverFoundFirings_length (fuel count : Nat) (h : count < fuel) :
    (spotifyNeverFoundFirings fuel count).length = count + 1 := by
  induction fuel generalizing count with
  | zero => omega
  | succ f ih =>
    cases count with
    | zero =>
      simp [spotifyNeverFoundFirings, spotifyConnectStatusHandler]
    | succ c =>
      have hc : c < f := by omega
      simp [spotifyNeverFoundFirings, spotifyConnectStatusHandler, ih c hc]

/-- C5: the spotify connection-status polling loop with a condition that
never becomes true is bounded: starting from any initial try count `n`, the
loop performs exactly `n + 1` checks (the entry-point timer plus `n`
handler-issued reschedules) and then terminates.  With
`tryCountUntilFound = 2` the fired checks run with counts `2, 1, 0` — the
initial check plus exactly 2 rescheduled checks — and the handler at count 0
terminates without scheduling a further timer. -/
theorem spotifyConnectLoop_bounded_termination :
    (∀ n : Nat, (spotifyNeverFoundFirings (n + 1) n).length = n + 1) ∧
    spotifyNeverFoundFirings 3 2 = [2, 1, 0] ∧
    spotifyConnectStatusHandler false 0 = HandlerOutcome.terminate := by
  refine ⟨fun n => spotifyNeverFoundFirings_length (n + 1) n (by omega), by decide, by decide⟩

/-- `populateSpotifyDevices` never writes the raw playlist-order fields. -/
theorem populateSpotifyDevices_raw_fields (dev : SpotifyApiResult (List String))
    (s : MusicDataState) :
    (populateSpotifyDevices dev s).origRawPlaylistOrder = s.origRawPlaylistOrder ∧
    (populateSpotifyDevices dev s).rawPlaylists = s.rawPlaylists := by
  cases dev with
  | payload v => simp [populateSpotifyDevices]
  | statusResult c =>
    by_cases hc : c = 429 <;> simp [populateSpotifyDevices, hc]

/-- The state holding playlists A and B before a `populateSpotifyPlaylists`
call. -/
def c1PriorState : MusicDataState :=
  { origRawPlaylistOrder := ["A", "B"], rawPlaylists := ["A", "B"],
    displayedPlaylists := ["Liked Songs", "A", "B"], savedPlaylists := [],
    currentDevices := SpotifyApiResult.payload [] }

/-- C1, counterexample: a `populateSpotifyPlaylists` call whose playlist
fetch returns status 503 does not leave the raw playlist orderings equal to
their pre-call values — the function clears them unconditionally before the
fetch, so they end empty instead of `["A", "B"]`. -/
theorem populateSpotifyPlaylists_error_not_snapshot_preserving :
    (populateSpotifyPlaylists (SpotifyApiResult.payload []) []
        (SpotifyApiResult.statusResult 503) c1PriorState).toOption.map
        (fun r => r.state.origRawPlaylistOrder)
      ≠ some c1PriorState.origRawPlaylistOrder := by
  decide

/-- C1, amended: when the playlist fetch returns a status of at least 400,
the call schedules a retry of the same fetch after a fixed 3000 ms delay and
never assigns the fetched error value to the raw playlist fields; but
reconciliation is not skipped (`reconcilePlaylists` and
`populateGeneratedPlaylists` run on every call) and the raw playlist
orderings are unconditionally cleared at the start of the call, so after an
error-status call they are empty rather than equal to their pre-call
values. -/
theorem populateSpotifyPlaylists_error_status_retries
    (dev : SpotifyApiResult (List String)) (saved : List String)
    (c : Nat) (s : MusicDataState) (hc : 400 ≤ c) :
    ∃ r, populateSpotifyPlaylists dev saved (SpotifyApiResult.statusResult c) s
        = Except.ok r ∧
      r.retryDelayMs = some 3000 ∧
      r.state.origRawPlaylistOrder = [] ∧ r.state.rawPlaylists = [] ∧
      r.state = populateGeneratedPlaylists
        (fetchSavedPlaylists saved
          (populateSpotifyDevices dev
            { reconcilePlaylists s with origRawPlaylistOrder := [], rawPlaylists := [] })) := by
  simp only [populateSpotifyPlaylists, ge_iff_le, hc, if_true]
  refine ⟨_, rfl, rfl, ?_, ?_, rfl⟩ <;>
    simp [populateGeneratedPlaylists, fetchSavedPlaylists,
      (populateSpotifyDevices_raw_fields dev _).1,
      (populateSpotifyDevices_raw_fields dev _).2]

/-- C1, witness for the amended theorem at the 503 fetch and the A/B prior
snapshot. -/
theorem populateSpotifyPlaylists_error_status_retries_witness :
    ∃ r, populateSpotifyPlaylists (SpotifyApiResult.payload []) []
        (SpotifyApiResult.statusResult 503) c1PriorState
        = Except.ok r ∧
      r.retryDelayMs = some 3000 ∧
      r.state.origRawPlaylistOrder = [] ∧ r.state.rawPlaylists = [] ∧
      r.state = populateGeneratedPlaylists
        (fetchSavedPlaylists []
          (populateSpotifyDevices (SpotifyApiResult.payload [])
            { reconcilePlaylists c1PriorState with
                origRawPlaylistOrder := [], rawPlaylists := [] })) :=
  populateSpotifyPlaylists_error_status_retries (SpotifyApiResult.payload []) [] 503
    c1PriorState (by decide)

/-- C6: a play request (not an expand) on a playlist-variant item whose
fetched track list is empty aborts before the selected-track assignment:
`selectedTrackItem` is unchanged and no backend call is dispatched. -/
theorem playSelectedItem_empty_playlist_no_sideeffect
    (item : PlaylistItemNode) (confirm : LaunchConfirmInfo)
    (playlistById : Option PlaylistItemNode) (s : MusicMgrState)
    (hitem : item.type = ItemType.playlist) :
    (playSelectedItem item false confirm playlistById [] s).state.selectedTrackItem
        = s.selectedTrackItem ∧
    (playSelectedItem item false confirm playlistById [] s).commands = [] := by
  cases hp : confirm.proceed <;> simp [playSelectedItem, hp, hitem]

/-- An empty playlist-variant node. -/
def c6EmptyPlaylist : PlaylistItemNode :=
  { id := "p-empty", name := "Empty", type := ItemType.playlist,
    playlist_id := none, position := none, playerType := ItemPlayerType.other }

/-- C6, witness: playing the empty playlist on a confirmed launching request
leaves the selected track untouched and dispatches nothing. -/
theorem playSelectedItem_empty_playlist_no_sideeffect_witness :
    (playSelectedItem c6EmptyPlaylist false
        { proceed := true, playerName := ChosenPlayer.spotifyWeb, isLaunching := true }
        none []
        { selectedTrackItem := none, selectedPlaylist := none,
          currentProvider := none, controlsLoading := false }).state.selectedTrackItem
      = ({ selectedTrackItem := none, selectedPlaylist := none,
           currentProvider := none, controlsLoading := false } : MusicMgrState).selectedTrackItem ∧
    (playSelectedItem c6EmptyPlaylist false
        { proceed := true, playerName := ChosenPlayer.spotifyWeb, isLaunching := true }
        none []
        { selectedTrackItem := none, selectedPlaylist := none,
          currentProvider := none, controlsLoading := false }).commands = [] :=
  playSelectedItem_empty_playlist_no_sideeffect c6EmptyPlaylist _ none _ rfl

/-- A track-variant node played against the web backend. -/
def c7TrackItem : PlaylistItemNode :=
  { id := "t1", name := "Track One", type := ItemType.track,
    playlist_id := some "p1", position := some 1, playerType := ItemPlayerType.other }

/-- The launch confirmation when a device is already active: proceed without
launching. -/
def c7ActiveDeviceConfirm : LaunchConfirmInfo :=
  { proceed := true, playerName := ChosenPlayer.spotifyWeb, isLaunching := false }

/-- An idle manager state. -/
def c7IdleState : MusicMgrState :=
  { selectedTrackItem := none, selectedPlaylist := none,
    currentProvider := none, controlsLoading := false }

/-- C7, counterexample: a confirmed play request against an already active
device (`isLaunching` false) dispatches the play command but schedules no
playlist list-refresh — the refresh is not scheduled regardless of whether a
backend had to be launched. -/
theorem playSelectedItem_active_device_schedules_no_refresh :
    (playSelectedItem c7TrackItem false c7ActiveDeviceConfirm none [] c7IdleState).commands
        = [{ cmd := BackendCommand.spotifyWebPlaylistTrack true, delayMs := none }] ∧
    (playSelectedItem c7TrackItem false c7ActiveDeviceConfirm none [] c7IdleState).refreshScheduled
        = false := by
  refine ⟨by decide, by decide⟩

/-- C7, amended: for every confirmed play or expand request that does not
abort on an empty playlist, a deferred playlist list-refresh is scheduled
exactly when a backend launch was initiated (`isLaunching`); when a device
was already active no refresh is scheduled. -/
theorem playSelectedItem_refresh_iff_launching
    (item : PlaylistItemNode) (isExpand : Bool) (confirm : LaunchConfirmInfo)
    (playlistById : Option PlaylistItemNode) (fetchedTracks : List PlaylistItemNode)
    (s : MusicMgrState) (hp : confirm.proceed = true)
    (hreach : item.type = ItemType.track ∨ isExpand = true ∨ fetchedTracks ≠ []) :
    (playSelectedItem item isExpand confirm playlistById fetchedTracks s).refreshScheduled
      = confirm.isLaunching := by
  rcases hreach with hT | hE | hNe
  · simp [playSelectedItem, hp, hT]
  · subst hE
    by_cases hT : item.type = ItemType.track <;> simp [playSelectedItem, hp, hT]
  · by_cases hT : item.type = ItemType.track
    · simp [playSelectedItem, hp, hT]
    · cases fetchedTracks with
      | nil => exact absurd rfl hNe
      | cons t ts => cases isExpand <;> simp [playSelectedItem, hp, hT]

/-- C7, witness for the amended theorem: the active-device play request
schedules a refresh exactly when launching, i.e. not at all here. -/
theorem playSelectedItem_refresh_iff_launching_witness :
    (playSelectedItem c7TrackItem false c7ActiveDeviceConfirm none [] c7IdleState).refreshScheduled
      = c7ActiveDeviceConfirm.isLaunching :=
  playSelectedItem_refresh_iff_launching c7TrackItem false c7ActiveDeviceConfirm none []
    c7IdleState rfl (Or.inl rfl)

/-- One scheduling event preserves the guard/timer invariant of both polled
conditions. -/
theorem pollStep_invariant (s : PollTimeouts) (e : PollEvent)
    (h : pollInvariant s) : pollInvariant (pollStep s e) := by
  obtain ⟨g1, g2, n1, n2⟩ := s
  obtain ⟨h1, h2, h3, h4⟩ := h
  dsimp only at h1 h2 h3 h4
  interval_cases n1 <;> interval_cases n2 <;> cases g1 <;> cases g2 <;> cases e <;>
    revert h3 h4 <;> decide

/-- Every event sequence preserves the guard/timer invariant. -/
theorem runPollEvents_invariant (evs : List PollEvent) (s : PollTimeouts)
    (h : pollInvariant s) : pollInvariant (runPollEvents evs s) := by
  induction evs generalizing s with
  | nil => exact h
  | cons e evs ih =>
    simp only [runPollEvents, List.foldl] at *
    exact ih (pollStep s e) (pollStep_invariant s e h)

/-- C8: in every state reachable from start-up by refetch calls and timer
firings, calling a refetch entry point while its guard is set is a no-op on
the state, and at most one timer per condition is outstanding. -/
theorem refetch_guard_single_outstanding_timer (evs : List PollEvent) (s : PollTimeouts)
    (h : runPollEvents evs initPollTimeouts = s) :
    ((s.slackFetchTimeout = true → refetchSlackConnectStatusLazily s = s) ∧
     (s.spotifyFetchTimeout = true → refetchSpotifyConnectStatusLazily s = s)) ∧
    s.slackOutstanding ≤ 1 ∧ s.spotifyOutstanding ≤ 1 := by
  subst h
  refine ⟨⟨?_, ?_⟩, ?_, ?_⟩
  · intro hg; simp [refetchSlackConnectStatusLazily, hg]
  · intro hg; simp [refetchSpotifyConnectStatusLazily, hg]
  · exact (runPollEvents_invariant evs _ (by decide)).1
  · exact (runPollEvents_invariant evs _ (by decide)).2.1

/-- C8, witness: after one slack refetch, its guard is set, a second refetch
is a no-op, and one timer per condition at most is outstanding. -/
theorem refetch_guard_single_outstanding_timer_witness :
    (((⟨true, false, 1, 0⟩ : PollTimeouts).slackFetchTimeout = true →
        refetchSlackConnectStatusLazily ⟨true, false, 1, 0⟩ = ⟨true, false, 1, 0⟩) ∧
     ((⟨true, false, 1, 0⟩ : PollTimeouts).spotifyFetchTimeout = true →
        refetchSpotifyConnectStatusLazily ⟨true, false, 1, 0⟩ = ⟨true, false, 1, 0⟩)) ∧
    (⟨true, false, 1, 0⟩ : PollTimeouts).slackOutstanding ≤ 1 ∧
    (⟨true, false, 1, 0⟩ : PollTimeouts).spotifyOutstanding ≤ 1 :=
  refetch_guard_single_outstanding_timer [PollEvent.slackRefetch] ⟨true, false, 1, 0⟩ (by decide)

/-- C9, counterexample: a cached value of `false` for `serverAvailable` is
coerced to a miss by `|| null`, so the call still issues the remote `/ping`;
consequently two consecutive calls while the server is unavailable make two
remote calls, not at most one. -/
theorem serverIsAvailable_cached_false_repings :
    (serverIsAvailable true (some false)).remoteCallMade = true ∧
    (serverIsAvailable false none).remoteCallMade = true ∧
    (serverIsAvailable false ((serverIsAvailable false none).newCache)).remoteCallMade = true := by
  decide

/-- C9, amended: the memoized fast path holds only for a cached `true`:
whenever the cache holds `true`, the call returns `true` without issuing the
remote `/ping`, and two consecutive calls whose first returns `true` perform
at most one remote call and return equal results; a cached `false` does not
suppress the remote call. -/
theorem serverIsAvailable_cached_true_memoized (p₁ p₂ : Bool) (cached : Option Bool)
    (h : cached = some true) :
    serverIsAvailable p₂ cached
        = { value := true, newCache := some true, remoteCallMade := false } ∧
    ((serverIsAvailable p₁ none).value = true →
      (serverIsAvailable p₂ ((serverIsAvailable p₁ none).newCache)).remoteCallMade = false ∧
      (serverIsAvailable p₂ ((serverIsAvailable p₁ none).newCache)).value
        = (serverIsAvailable p₁ none).value) := by
  subst h
  constructor
  · cases p₂ <;> decide
  · intro hv
    cases p₁ with
    | false => exact absurd hv (by decide)
    | true => cases p₂ <;> exact ⟨by decide, by decide⟩

/-- C9, witness: with `true` cached (after a successful first ping), the
second call is served from the cache. -/
theorem serverIsAvailable_cached_true_memoized_witness :
    serverIsAvailable false (some true)
        = { value := true, newCache := some true, remoteCallMade := false } ∧
    ((serverIsAvailable true none).value = true →
      (serverIsAvailable false ((serverIsAvailable true none).newCache)).remoteCallMade = false ∧
      (serverIsAvailable false ((serverIsAvailable true none).newCache)).value
        = (serverIsAvailable true none).value) :=
  serverIsAvailable_cached_true_memoized true false (some true) rfl
